import Mathlib

/-!
Shallow embedding of the valorant-battlepass-tracker sources
(`src/main.ts`, two pipeline variants, `src/config.ts`, `src/types.ts`).

JavaScript `number` values that the program only ever uses as integers
(progression counts, tier levels, millisecond timestamps) are modelled as
`Int`; the arithmetic of the report renderer (divisions, percentages) is
modelled exactly over `Rat`.  `throw` is modelled with `Except`; a thrown
`new Error(msg)` is `JsError.error msg` and a runtime `TypeError`
(property access on `undefined`) is `JsError.typeError msg`.  Network and
local-file lookups are modelled as oracles supplied by the environment.
-/

set_option maxHeartbeats 1000000

/-- A thrown JavaScript value: either a deliberately constructed
`new Error(msg)`, or a runtime `TypeError` raised by the engine. -/
inductive JsError where
  | error (msg : String)
  | typeError (msg : String)
deriving DecidableEq

/-- `Season.Type` field of `src/types.ts`: `'episode' | 'act'`. -/
inductive SeasonType where
  | episode
  | act
deriving DecidableEq

/-- `Season` from `src/types.ts`.  The source field `Type` is a Lean
keyword, rendered here as `kind`. -/
structure Season where
  kind : SeasonType
  IsActive : Bool
  EndTime : String
deriving DecidableEq

/-- `Contract.ContractProgression` from `src/types.ts`; the
`HighestRewardedLevel` map is a list of (key, Amount, Version) triples. -/
structure ContractProgression where
  TotalProgressionEarned : Int
  TotalProgressionEarnedVersion : Int
  HighestRewardedLevel : List (String × Int × Int)
deriving DecidableEq

/-- `Contract` from `src/types.ts`. -/
structure Contract where
  ContractDefinitionID : String
  ContractProgression : ContractProgression
  ProgressionLevelReached : Int
  ProgressionTowardsNextLevel : Int
deriving DecidableEq

/-- `CONTRACT_BATTLEPASS_ID` of the first `main.ts` variant. -/
def CONTRACT_BATTLEPASS_ID_V1 : String := "d3946b6b-49b3-746b-169e-9488f7a3ba35"

/-- `CONTRACT_BATTLEPASS_ID` of the second `main.ts` variant. -/
def CONTRACT_BATTLEPASS_ID : String := "07ba5d79-4245-03d8-7996-13baf5d08c1a"

/-- `CLIENT_PLATFORM` constant of `src/config.ts` (opaque base64 blob). -/
def CLIENT_PLATFORM : String :=
  "ew0KCSJwbGF0Zm9ybVR5cGUiOiAiUEMiLA0KCSJwbGF0Zm9ybU9TIjogIldpbmRvd3MiLA0KCSJwbGF0Zm9ybU9TVmVyc2lvbiI6ICIxMC4wLjE5MDQyLjEuMjU2LjY0Yml0IiwNCgkicGxhdGZvcm1DaGlwc2V0IjogIlVua25vd24iDQp9"

/-- `getTotalXpRequired` (identical in both `main.ts` variants):
`for (let i = 1; i <= 50; i++) if (i !== 1) result += i * 750 + 500;`
plus `5 * 36500` when `withEpilogue` is set. -/
def getTotalXpRequired (withEpilogue : Bool) : Nat :=
  let numberOfTiers := 50
  let result :=
    (List.range' 1 numberOfTiers).foldl
      (fun result i => if i ≠ 1 then result + (i * 750 + 500) else result) 0
  if withEpilogue then
    let numberOfEpilogueTiers := 5
    let xpRequriedPerEpilogueTier := 36500
    result + numberOfEpilogueTiers * xpRequriedPerEpilogueTier
  else result

/-- `Config` from `src/types.ts` (the fully resolved credential bundle
of the second variant; `src/config.ts` builds it). -/
structure Config where
  clientVersion : String
  shard : String
  ssid : String
  accessToken : String
  puuid : String
  entitlementsToken : String
  clientPlatform : String
deriving DecidableEq

/-- The six credential fields resolved by the shared chain of
`src/config.ts` `getConfig` and the first variant's
`getBattlePassProgress` (which inlines the same chain, without
`clientPlatform`). -/
structure Credentials where
  clientVersion : String
  shard : String
  ssid : String
  accessToken : String
  puuid : String
  entitlementsToken : String
deriving DecidableEq

/-- The parse of the on-disk `config.yaml` record as `Partial<Config>`:
each field may be absent.  An absent or empty (unparseable) file is
modelled as `none` at the `Option PartialConfig` level.  The
`clientPlatform` key written by the second variant is never read back
(`parsedConfig?.clientPlatform` does not occur in the source), so it is
carried here only for round-trip fidelity. -/
structure PartialConfig where
  clientVersion : Option String
  shard : Option String
  ssid : Option String
  accessToken : Option String
  puuid : Option String
  entitlementsToken : Option String
  clientPlatform : Option String
deriving DecidableEq

/-- Which of the six fallback lookups (`getClientVersion`, `getShard`,
`getSSID`, `getAccessToken`, `getPUUID`, `getEntitlementsToken`) were
invoked during one run of the resolution chain.  Instrumentation only;
it does not alter the resolution logic. -/
structure Invocations where
  clientVersion : Bool
  shard : Bool
  ssid : Bool
  accessToken : Bool
  puuid : Bool
  entitlementsToken : Bool
deriving DecidableEq

/-- Oracles for the six fallback lookups.  Each models the corresponding
network or local-file helper of the source (`getClientVersion`,
`getShard`, `getSSID`, `getAccessToken ssid`, `getPUUID accessToken`,
`getEntitlementsToken accessToken`) as the value it would return or the
error it would throw on this run. -/
structure ResolverEnv where
  clientVersion : Except JsError String
  shard : Except JsError String
  ssid : Except JsError String
  accessToken : String → Except JsError String
  puuid : String → Except JsError String
  entitlementsToken : String → Except JsError String

/-- One `cached ?? fallback` step of the chain: the cached value when it
is present (JS `??` fires only on a nullish left operand), otherwise the
fallback lookup.  The second component records whether the fallback
lookup was invoked, which is exactly when the cached value is absent. -/
def resolveField (cached : Option String) (fallback : Except JsError String) :
    Except JsError String × Bool :=
  (match cached with
   | some v => Except.ok v
   | none => fallback,
   cached.isNone)

/-- The six-step resolution chain shared by `src/config.ts` `getConfig`
(lines 116-122) and the first variant's `getBattlePassProgress` (lines
105-111): each field prefers the parsed cache record and falls back to
its own lookup, in source order; a throwing lookup aborts the chain. -/
def resolveCredentials (env : ResolverEnv) (c : Option PartialConfig) :
    Except JsError Credentials × Invocations :=
  let (cvR, cvI) := resolveField (c.bind PartialConfig.clientVersion) env.clientVersion
  match cvR with
  | .error e => (.error e, ⟨cvI, false, false, false, false, false⟩)
  | .ok clientVersion =>
    let (shR, shI) := resolveField (c.bind PartialConfig.shard) env.shard
    match shR with
    | .error e => (.error e, ⟨cvI, shI, false, false, false, false⟩)
    | .ok shard =>
      let (ssR, ssI) := resolveField (c.bind PartialConfig.ssid) env.ssid
      match ssR with
      | .error e => (.error e, ⟨cvI, shI, ssI, false, false, false⟩)
      | .ok ssid =>
        let (atR, atI) := resolveField (c.bind PartialConfig.accessToken) (env.accessToken ssid)
        match atR with
        | .error e => (.error e, ⟨cvI, shI, ssI, atI, false, false⟩)
        | .ok accessToken =>
          let (puR, puI) := resolveField (c.bind PartialConfig.puuid) (env.puuid accessToken)
          match puR with
          | .error e => (.error e, ⟨cvI, shI, ssI, atI, puI, false⟩)
          | .ok puuid =>
            let (etR, etI) :=
              resolveField (c.bind PartialConfig.entitlementsToken)
                (env.entitlementsToken accessToken)
            match etR with
            | .error e => (.error e, ⟨cvI, shI, ssI, atI, puI, etI⟩)
            | .ok entitlementsToken =>
              (.ok ⟨clientVersion, shard, ssid, accessToken, puuid, entitlementsToken⟩,
               ⟨cvI, shI, ssI, atI, puI, etI⟩)

/-- The pure part of `src/config.ts` `getConfig`: resolve the six fields,
then assemble the `Config` record with the constant `clientPlatform`. -/
def getConfig (env : ResolverEnv) (c : Option PartialConfig) : Except JsError Config :=
  match (resolveCredentials env c).1 with
  | .error e => .error e
  | .ok cr =>
    .ok ⟨cr.clientVersion, cr.shard, cr.ssid, cr.accessToken, cr.puuid,
         cr.entitlementsToken, CLIENT_PLATFORM⟩

/-- Serialization of a full `Config` back to the cache record, as
`yaml.stringify(config)` writes it: every field present. -/
def toPartial (cfg : Config) : PartialConfig :=
  ⟨some cfg.clientVersion, some cfg.shard, some cfg.ssid, some cfg.accessToken,
   some cfg.puuid, some cfg.entitlementsToken, some cfg.clientPlatform⟩

/-- `src/config.ts` `getConfig` with its cache side effect made explicit:
`fs.writeFileSync('config.yaml', yaml.stringify(config))` runs only after
all six fields have resolved, so the second component is the cache state
after the call (unchanged when resolution throws). -/
def runGetConfig (env : ResolverEnv) (cache : Option PartialConfig) :
    Except JsError Config × Option PartialConfig :=
  match getConfig env cache with
  | .error e => (.error e, cache)
  | .ok cfg => (.ok cfg, some (toPartial cfg))

/-- The `message` property of a thrown value, as read by
`handleError((error as Error).message)`. -/
def JsError.msg : JsError → String
  | .error m => m
  | .typeError m => m

/-- `getBattlepassData` of the second `main.ts` variant: resolve the
config (with its cache write), fetch the contract list (modelled by the
`contracts` oracle), and return the first entry matching
`CONTRACT_BATTLEPASS_ID`; absent a match, return `undefined` when the
`retry` option is set, otherwise throw.  The second component is the
cache state after the call. -/
def getBattlepassData (env : ResolverEnv) (cache : Option PartialConfig)
    (contracts : List Contract) (retry : Bool) :
    Except JsError (Option Contract) × Option PartialConfig :=
  match runGetConfig env cache with
  | (.error e, cache') => (.error e, cache')
  | (.ok _config, cache') =>
    match contracts.find? (fun c => c.ContractDefinitionID == CONTRACT_BATTLEPASS_ID) with
    | some battlepassData => (.ok (some battlepassData), cache')
    | none =>
      if retry then (.ok none, cache')
      else (.error (.error "Failed to get battlepass data"), cache')

/-- `getActiveActEndDate` of the second `main.ts` variant: resolve the
config, fetch the season list, and take
`data.Seasons.find(s => s.IsActive && s.Type === 'act')`.  The source
then evaluates `new Date(activeAct.EndTime)` with no existence check, so
when no season matches, `activeAct` is `undefined` and the property read
raises a runtime `TypeError` (there is no dedicated season-not-found
error in the code).  `parseDate` models `new Date(...).getTime()` in
milliseconds. -/
def getActiveActEndDate (env : ResolverEnv) (cache : Option PartialConfig)
    (seasons : List Season) (parseDate : String → Int) :
    Except JsError Int × Option PartialConfig :=
  match runGetConfig env cache with
  | (.error e, cache') => (.error e, cache')
  | (.ok _config, cache') =>
    match seasons.find? (fun s => s.IsActive && s.kind == SeasonType.act) with
    | some activeAct => (.ok (parseDate activeAct.EndTime), cache')
    | none => (.error (.typeError "Cannot read properties of undefined"), cache')

/-- `Math.min(100, (battlepassProgress / totalXpRequired) * 100)` from
the second variant's `main`. -/
def progressPercentage (earned totalXpRequired : ℚ) : ℚ :=
  min 100 (earned / totalXpRequired * 100)

/-- `Math.max(0, totalXpRequired - battlepassProgress)` from the second
variant's `main`. -/
def xpRemaining (earned totalXpRequired : ℚ) : ℚ :=
  max 0 (totalXpRequired - earned)

/-- The numbers printed by the progress section of the second variant's
`main` (before the time-remaining section). -/
structure Report where
  progressPercentage : ℚ
  progressPercentageWithEpilogue : ℚ
  xpRemaining : ℚ
  xpRemainingWithEpilogue : ℚ
  battlepassLevel : Int
deriving DecidableEq

/-- The progress section of the second variant's `main`, lines 292-310:
both percentages and both remaining-XP figures against the two fixed
totals. -/
def mkReport (battlepassProgress battlepassLevel : Int) : Report :=
  let totalXpRequired : ℚ := getTotalXpRequired false
  let totalXpRequiredWithEpilogue : ℚ := getTotalXpRequired true
  ⟨progressPercentage battlepassProgress totalXpRequired,
   progressPercentage battlepassProgress totalXpRequiredWithEpilogue,
   xpRemaining battlepassProgress totalXpRequired,
   xpRemaining battlepassProgress totalXpRequiredWithEpilogue,
   battlepassLevel⟩

/-- `(activeActEndDate.getTime() - (Date.now() + 1000 * 60 * 60 * 2)) / 1000`
(the UTC+2 offset), with both timestamps in integer milliseconds. -/
def remainingTimeInSeconds (endMs nowMs : Int) : ℚ :=
  ((endMs : ℚ) - ((nowMs : ℚ) + 1000 * 60 * 60 * 2)) / 1000

/-- Truncation toward zero, the rounding used by the JavaScript `%`
operator. -/
def jsTrunc (q : ℚ) : Int :=
  if 0 ≤ q then ⌊q⌋ else ⌈q⌉

/-- The JavaScript remainder operator `a % b`: `a - b * trunc(a / b)`
(the result takes the sign of the dividend). -/
def jsRem (a b : ℚ) : ℚ :=
  a - b * (jsTrunc (a / b) : ℚ)

/-- `Math.floor(remainingTimeInSeconds / 86400)`. -/
def remainingDays (endMs nowMs : Int) : Int :=
  ⌊remainingTimeInSeconds endMs nowMs / 86400⌋

/-- `Math.floor((remainingTimeInSeconds % 86400) / 3600)`. -/
def remainingHours (endMs nowMs : Int) : Int :=
  ⌊jsRem (remainingTimeInSeconds endMs nowMs) 86400 / 3600⌋

/-- `Math.floor((remainingTimeInSeconds % 3600) / 60)`. -/
def remainingMinutes (endMs nowMs : Int) : Int :=
  ⌊jsRem (remainingTimeInSeconds endMs nowMs) 3600 / 60⌋

/-- How one run of `main` ends: the second variant either reaches
`while (true);` after printing (`spins`) or calls `process.exit(1)`
(`exit 1`); the first variant's `main` can also return normally
(`finished`), after which the runtime exits with status 0. -/
inductive Outcome where
  | spins
  | exit (code : Nat)
  | finished
deriving DecidableEq

/-- Observable trace of one run of the second variant's `main`:
the `retry` flag of each `getBattlepassData` call in order, how many
times `config.yaml` was truncated to empty, the lines appended to
`error.log` (which `main` truncates at start), whether the progress
report was printed, its numbers, the printed time decomposition, and the
outcome. -/
structure RunResult where
  fetchCalls : List Bool
  cacheClears : Nat
  log : List String
  printedReport : Bool
  report : Option Report
  time : Option (Int × Int × Int)
  outcome : Outcome
deriving DecidableEq

/-- `handleError`: append the failure message to `error.log` and
`process.exit(1)`. -/
def handleError (log : List String) (msg : String) : List String × Outcome :=
  (log ++ [msg], .exit 1)

/-- Oracles for one run of the second variant's `main`: resolver
environments and contract lists for the first and (post-clear) second
`getBattlepassData` call, the resolver environment and season list for
`getActiveActEndDate`, the `Date` parser, and `Date.now()`. -/
structure WorldV2 where
  env1 : ResolverEnv
  contracts1 : List Contract
  env2 : ResolverEnv
  contracts2 : List Contract
  envS : ResolverEnv
  seasons : List Season
  parseDate : String → Int
  nowMs : Int

/-- The tail of the second variant's `main` after a battlepass record is
in hand: print the progress report, then fetch the active act's end date
(which may throw into the catch block), print the time remaining, and
reach `while (true);`. -/
def mainV2Tail (w : WorldV2) (battlepassData : Contract) (cache : Option PartialConfig)
    (fetchCalls : List Bool) (clears : Nat) (log0 : List String) : RunResult :=
  let report := mkReport battlepassData.ContractProgression.TotalProgressionEarned
      battlepassData.ProgressionLevelReached
  match getActiveActEndDate w.envS cache w.seasons w.parseDate with
  | (.error e, _) =>
    let (log, outcome) := handleError log0 e.msg
    ⟨fetchCalls, clears, log, true, some report, none, outcome⟩
  | (.ok endMs, _) =>
    ⟨fetchCalls, clears, log0, true, some report,
     some (remainingDays endMs w.nowMs, remainingHours endMs w.nowMs,
           remainingMinutes endMs w.nowMs),
     .spins⟩

/-- The second variant's `main`: truncate `error.log`, call
`getBattlepassData({ retry: true })`; on `undefined`, append
`'Retrying...'`, truncate `config.yaml`, and call `getBattlepassData()`
once more; a still-missing record throws `'Failed to get progress'`.
Any thrown error lands in `handleError`. -/
def mainV2 (w : WorldV2) (c0 : Option PartialConfig) : RunResult :=
  match getBattlepassData w.env1 c0 w.contracts1 true with
  | (.error e, _) =>
    let (log, outcome) := handleError [] e.msg
    ⟨[true], 0, log, false, none, none, outcome⟩
  | (.ok (some battlepassData), cache1) =>
    mainV2Tail w battlepassData cache1 [true] 0 []
  | (.ok none, _) =>
    match getBattlepassData w.env2 none w.contracts2 false with
    | (.error e, _) =>
      let (log, outcome) := handleError ["Retrying..."] e.msg
      ⟨[true, false], 1, log, false, none, none, outcome⟩
    | (.ok (some battlepassData), cache2) =>
      mainV2Tail w battlepassData cache2 [true, false] 1 ["Retrying..."]
    | (.ok none, _) =>
      let (log, outcome) := handleError ["Retrying..."] "Failed to get progress"
      ⟨[true, false], 1, log, false, none, none, outcome⟩

/-- `getBattlePassProgress` of the first `main.ts` variant: resolve the
six credentials inline (same chain as `getConfig`, no `clientPlatform`),
write the cache, fetch the contract list, and take
`find(...)?.ContractProgression?.TotalProgressionEarned`.  The check
`if (progress) return progress` is JavaScript truthiness, so a present
record whose earned total is `0` falls through to
`if (config) return undefined` / `throw`. -/
def getBattlePassProgress (env : ResolverEnv) (cache : Option PartialConfig)
    (contracts : List Contract) : Except JsError (Option Int) × Option PartialConfig :=
  match resolveCredentials env cache with
  | (.error e, _) => (.error e, cache)
  | (.ok cr, _) =>
    let newConfig : PartialConfig :=
      ⟨some cr.clientVersion, some cr.shard, some cr.ssid, some cr.accessToken,
       some cr.puuid, some cr.entitlementsToken, none⟩
    let progress :=
      (contracts.find? (fun c => c.ContractDefinitionID == CONTRACT_BATTLEPASS_ID_V1)).map
        (fun c => c.ContractProgression.TotalProgressionEarned)
    match progress with
    | some p =>
      if p ≠ 0 then (.ok (some p), some newConfig)
      else if cache.isSome then (.ok none, some newConfig)
      else (.error (.error "Failed to get progress"), some newConfig)
    | none =>
      if cache.isSome then (.ok none, some newConfig)
      else (.error (.error "Failed to get progress"), some newConfig)

/-- JavaScript `!x` for `x : number | undefined`: truthy iff defined and
nonzero. -/
def jsFalsyNum (v : Option Int) : Bool :=
  v.getD 0 == 0

/-- Observable trace of one run of the first variant's `main`. -/
structure RunResultV1 where
  fetchCount : Nat
  cacheClears : Nat
  log : List String
  printed : Option (ℚ × ℚ)
  outcome : Outcome
deriving DecidableEq

/-- Oracles for one run of the first variant's `main`. -/
structure WorldV1 where
  env1 : ResolverEnv
  contracts1 : List Contract
  env2 : ResolverEnv
  contracts2 : List Contract

/-- The success tail of the first variant's `main`: the two (unclamped)
percentages it prints, then the function returns and the process exits
normally. -/
def mainV1Finish (battlePassProgress : Int) (fetchCount clears : Nat)
    (log0 : List String) : RunResultV1 :=
  let totalXpRequired : ℚ := getTotalXpRequired false
  let totalXpRequiredWithEpilogue : ℚ := getTotalXpRequired true
  ⟨fetchCount, clears, log0,
   some ((battlePassProgress / totalXpRequired) * 100,
         (battlePassProgress / totalXpRequiredWithEpilogue) * 100),
   .finished⟩

/-- The first variant's `main`: fetch once; if the result is falsy
(`undefined` or `0`), append `'Retrying...'`, truncate `config.yaml`,
fetch again; a still-falsy result throws `'Failed to get progress'`.
Any thrown error lands in `handleError`. -/
def mainV1 (w : WorldV1) (c0 : Option PartialConfig) : RunResultV1 :=
  match getBattlePassProgress w.env1 c0 w.contracts1 with
  | (.error e, _) => ⟨1, 0, [e.msg], none, .exit 1⟩
  | (.ok v1, _) =>
    if jsFalsyNum v1 then
      match getBattlePassProgress w.env2 none w.contracts2 with
      | (.error e, _) => ⟨2, 1, ["Retrying...", e.msg], none, .exit 1⟩
      | (.ok v2, _) =>
        if jsFalsyNum v2 then
          ⟨2, 1, ["Retrying...", "Failed to get progress"], none, .exit 1⟩
        else mainV1Finish (v2.getD 0) 2 1 ["Retrying..."]
    else mainV1Finish (v1.getD 0) 1 0 []

/-- A resolver environment in which every fallback lookup succeeds. -/
def envOK : ResolverEnv :=
  ⟨.ok "release-09.00-shipping", .ok "eu", .ok "ssid-cookie",
   fun _ => .ok "access-token", fun _ => .ok "puuid-1", fun _ => .ok "ent-token"⟩

/-- A resolver environment in which every fallback lookup throws. -/
def envFail : ResolverEnv :=
  ⟨.error (.error "Failed to get client version"),
   .error (.error "Failed to get shard"),
   .error (.error "Failed to get ssid"),
   fun _ => .error (.error "Failed to get access token"),
   fun _ => .error (.error "Failed to get puuid"),
   fun _ => .error (.error "Failed to get entitlements token")⟩

/-- The bundle `envOK` resolves from an empty cache. -/
def cfgOK : Config :=
  ⟨"release-09.00-shipping", "eu", "ssid-cookie", "access-token", "puuid-1",
   "ent-token", CLIENT_PLATFORM⟩

/-- A fully populated cache record. -/
def fullCache : PartialConfig := toPartial cfgOK

/-- A battlepass contract record (second variant's definition id). -/
def bpContract (earned : Int) : Contract :=
  ⟨CONTRACT_BATTLEPASS_ID, ⟨earned, 1, []⟩, 12, 3000⟩

/-- A battlepass contract record (first variant's definition id). -/
def bpContractV1 (earned : Int) : Contract :=
  ⟨CONTRACT_BATTLEPASS_ID_V1, ⟨earned, 1, []⟩, 12, 3000⟩

/-- An active act season. -/
def actSeason : Season := ⟨SeasonType.act, true, "2026-01-10T00:00:00.00Z"⟩

/-- A world in which every step of the second variant's `main`
succeeds. -/
def w0 : WorldV2 :=
  ⟨envOK, [bpContract 5000], envOK, [], envOK, [actSeason],
   fun _ => 1767225600000, 1760000000000⟩

/-- A world in which neither `getBattlepassData` attempt finds a
matching contract. -/
def w3 : WorldV2 :=
  ⟨envOK, [], envOK, [], envOK, [actSeason],
   fun _ => 1767225600000, 1760000000000⟩

/-- A first-variant world in which both fetches find a battlepass record
with zero progression. -/
def wz : WorldV1 := ⟨envOK, [bpContractV1 0], envOK, [bpContractV1 0]⟩

/-- The two fixed totals as naturals, for reuse below. -/
theorem totalXp_noEpilogue : getTotalXpRequired false = 980000 := by decide

/-- The fixed with-epilogue total. -/
theorem totalXp_epilogue : getTotalXpRequired true = 1162500 := by decide

/-- C1: `getTotalXpRequired` without the epilogue flag equals the
closed-form sum over tiers 2..50 of `i*750+500`, which is the literal
980000; with the epilogue flag it equals that value plus `5 * 36500`,
which is the literal 1162500. -/
theorem getTotalXpRequired_closed_form :
    getTotalXpRequired false = ∑ i in Finset.Icc 2 50, (i * 750 + 500) ∧
    getTotalXpRequired false = 980000 ∧
    getTotalXpRequired true = (∑ i in Finset.Icc 2 50, (i * 750 + 500)) + 5 * 36500 ∧
    getTotalXpRequired true = 1162500 := by
  refine ⟨?_, ?_, ?_, ?_⟩ <;> decide

/-- C2: the reported percentage is `min(100, earned / required * 100)`
and the reported XP remaining is `max(0, required - earned)` against the
two fixed totals 980000 and 1162500; whenever earned is at least the
required total, the percentage is exactly 100 and the remaining XP is
exactly 0. -/
theorem mkReport_clamped (earned battlepassLevel : Int) (h0 : 0 ≤ earned) :
    ((mkReport earned battlepassLevel).progressPercentage
        = min 100 ((earned : ℚ) / 980000 * 100) ∧
      (mkReport earned battlepassLevel).progressPercentageWithEpilogue
        = min 100 ((earned : ℚ) / 1162500 * 100) ∧
      (mkReport earned battlepassLevel).xpRemaining
        = max 0 (980000 - (earned : ℚ)) ∧
      (mkReport earned battlepassLevel).xpRemainingWithEpilogue
        = max 0 (1162500 - (earned : ℚ))) ∧
    ((980000 : Int) ≤ earned →
      (mkReport earned battlepassLevel).progressPercentage = 100 ∧
      (mkReport earned battlepassLevel).xpRemaining = 0) ∧
    ((1162500 : Int) ≤ earned →
      (mkReport earned battlepassLevel).progressPercentageWithEpilogue = 100 ∧
      (mkReport earned battlepassLevel).xpRemainingWithEpilogue = 0) := by
  have e1 : (getTotalXpRequired false : ℚ) = 980000 := by rw [totalXp_noEpilogue]; norm_num
  have e2 : (getTotalXpRequired true : ℚ) = 1162500 := by rw [totalXp_epilogue]; norm_num
  refine ⟨⟨?_, ?_, ?_, ?_⟩, fun h => ⟨?_, ?_⟩, fun h => ⟨?_, ?_⟩⟩ <;>
    simp only [mkReport, progressPercentage, xpRemaining, e1, e2]
  · have hq : (980000 : ℚ) ≤ (earned : ℚ) := by exact_mod_cast h
    rw [min_eq_left]
    rw [div_mul_eq_mul_div, le_div_iff₀ (by norm_num : (0:ℚ) < 980000)]
    linarith
  · have hq : (980000 : ℚ) ≤ (earned : ℚ) := by exact_mod_cast h
    rw [max_eq_left]
    linarith
  · have hq : (1162500 : ℚ) ≤ (earned : ℚ) := by exact_mod_cast h
    rw [min_eq_left]
    rw [div_mul_eq_mul_div, le_div_iff₀ (by norm_num : (0:ℚ) < 1162500)]
    linarith
  · have hq : (1162500 : ℚ) ≤ (earned : ℚ) := by exact_mod_cast h
    rw [max_eq_left]
    linarith

/-- Witness for C2 at earned = 2000000. -/
theorem mkReport_clamped_witness :
    (mkReport 2000000 55).progressPercentage = 100 ∧
    (mkReport 2000000 55).xpRemaining = 0 ∧
    (mkReport 2000000 55).progressPercentageWithEpilogue = 100 ∧
    (mkReport 2000000 55).xpRemainingWithEpilogue = 0 := by
  have h := mkReport_clamped 2000000 55 (by norm_num)
  exact ⟨(h.2.1 (by norm_num)).1, (h.2.1 (by norm_num)).2,
         (h.2.2 (by norm_num)).1, (h.2.2 (by norm_num)).2⟩

/-- C8: the time remaining is the season end timestamp minus
(`Date.now()` plus the fixed two-hour offset) in seconds, decomposed
into days, hours and minutes by flooring quotients of the remainder
chain, and it is never clamped: when the season end has already passed
the printed day count is negative. -/
theorem remainingTime_decomposition (endMs nowMs : Int) :
    remainingTimeInSeconds endMs nowMs
        = ((endMs : ℚ) - ((nowMs : ℚ) + 7200000)) / 1000 ∧
    remainingDays endMs nowMs = ⌊remainingTimeInSeconds endMs nowMs / 86400⌋ ∧
    remainingHours endMs nowMs
        = ⌊jsRem (remainingTimeInSeconds endMs nowMs) 86400 / 3600⌋ ∧
    remainingMinutes endMs nowMs
        = ⌊jsRem (remainingTimeInSeconds endMs nowMs) 3600 / 60⌋ ∧
    (endMs < nowMs + 7200000 → remainingDays endMs nowMs < 0) := by
  refine ⟨by unfold remainingTimeInSeconds; norm_num, rfl, rfl, rfl, fun h => ?_⟩
  have hq : (endMs : ℚ) < (nowMs : ℚ) + 7200000 := by exact_mod_cast h
  have hneg : remainingTimeInSeconds endMs nowMs < 0 := by
    unfold remainingTimeInSeconds
    apply div_neg_of_neg_of_pos _ (by norm_num)
    linarith
  have hq2 : remainingTimeInSeconds endMs nowMs / 86400 < 0 :=
    div_neg_of_neg_of_pos hneg (by norm_num)
  exact Int.floor_lt.2 (by exact_mod_cast hq2)

/-- Witness for C8: with the season end in the past the printed day
count is negative. -/
theorem remainingTime_decomposition_witness : remainingDays 0 0 < 0 :=
  (remainingTime_decomposition 0 0).2.2.2.2 (by norm_num)

/-- C4: whenever the config resolves, `getBattlepassData` returns a
contract from the list whose definition id is the fixed battlepass
constant when one exists; when none matches it returns `undefined` under
the `retry` option and throws `'Failed to get battlepass data'`
otherwise. -/
theorem getBattlepassData_spec (env : ResolverEnv) (cache : Option PartialConfig)
    (contracts : List Contract) (retry : Bool) (cfg : Config)
    (hc : getConfig env cache = .ok cfg) :
    ((∃ c ∈ contracts, c.ContractDefinitionID = CONTRACT_BATTLEPASS_ID) →
      ∃ bp, (getBattlepassData env cache contracts retry).1 = .ok (some bp) ∧
        bp ∈ contracts ∧ bp.ContractDefinitionID = CONTRACT_BATTLEPASS_ID) ∧
    ((∀ c ∈ contracts, c.ContractDefinitionID ≠ CONTRACT_BATTLEPASS_ID) → retry = true →
      (getBattlepassData env cache contracts retry).1 = .ok none) ∧
    ((∀ c ∈ contracts, c.ContractDefinitionID ≠ CONTRACT_BATTLEPASS_ID) → retry = false →
      (getBattlepassData env cache contracts retry).1 =
        .error (.error "Failed to get battlepass data")) := by
  have hrun : runGetConfig env cache = (.ok cfg, some (toPartial cfg)) := by
    unfold runGetConfig
    rw [hc]
  refine ⟨fun hex => ?_, fun hnone hr => ?_, fun hnone hr => ?_⟩
  · have : (contracts.find?
        (fun c => c.ContractDefinitionID == CONTRACT_BATTLEPASS_ID)).isSome := by
      rw [List.find?_isSome]
      obtain ⟨c, hmem, hid⟩ := hex
      exact ⟨c, hmem, by simp [hid]⟩
    obtain ⟨bp, hfind⟩ := Option.isSome_iff_exists.1 this
    refine ⟨bp, ?_, List.mem_of_find?_eq_some hfind, ?_⟩
    · unfold getBattlepassData
      rw [hrun, hfind]
    · have := List.find?_some hfind
      simpa using this
  · have hfind : contracts.find?
        (fun c => c.ContractDefinitionID == CONTRACT_BATTLEPASS_ID) = none := by
      rw [List.find?_eq_none]
      intro c hmem
      simp [hnone c hmem]
    unfold getBattlepassData
    rw [hrun, hfind, hr]
    simp
  · have hfind : contracts.find?
        (fun c => c.ContractDefinitionID == CONTRACT_BATTLEPASS_ID) = none := by
      rw [List.find?_eq_none]
      intro c hmem
      simp [hnone c hmem]
    unfold getBattlepassData
    rw [hrun, hfind, hr]
    simp

/-- Witness for C4: with no matching contract and retry disabled, the
call throws the progress-not-found error. -/
theorem getBattlepassData_spec_witness :
    (getBattlepassData envOK none [] false).1 =
      .error (.error "Failed to get battlepass data") :=
  (getBattlepassData_spec envOK none [] false cfgOK rfl).2.2 (by simp) rfl

/-- C5: the cache write of `getConfig` happens only after all six fields
resolve: a failing run leaves the cache record unchanged, and a
successful run persists the fully populated bundle (every field
present). -/
theorem runGetConfig_atomic (env : ResolverEnv) (cache : Option PartialConfig) :
    (∀ e, (runGetConfig env cache).1 = .error e → (runGetConfig env cache).2 = cache) ∧
    (∀ cfg, (runGetConfig env cache).1 = .ok cfg →
      (runGetConfig env cache).2 = some (toPartial cfg) ∧
      ((toPartial cfg).clientVersion.isSome ∧ (toPartial cfg).shard.isSome ∧
       (toPartial cfg).ssid.isSome ∧ (toPartial cfg).accessToken.isSome ∧
       (toPartial cfg).puuid.isSome ∧ (toPartial cfg).entitlementsToken.isSome ∧
       (toPartial cfg).clientPlatform.isSome)) := by
  unfold runGetConfig
  cases h : getConfig env cache <;> simp [toPartial]

/-- Witness for C5: a failing resolution from an empty cache leaves the
cache absent. -/
theorem runGetConfig_atomic_witness : (runGetConfig envFail none).2 = none :=
  (runGetConfig_atomic envFail none).1 (.error "Failed to get client version") rfl


/-- C6: each credential field present in the loaded cache is used as-is
and its fallback lookup is not invoked; a fallback lookup runs only when
its field is absent from the cache. -/
theorem resolveCredentials_cache_precedence (env : ResolverEnv) (cfg : PartialConfig) :
    ((∀ v, cfg.clientVersion = some v →
        (resolveCredentials env (some cfg)).2.clientVersion = false ∧
        ∀ cr, (resolveCredentials env (some cfg)).1 = .ok cr → cr.clientVersion = v) ∧
      ((resolveCredentials env (some cfg)).2.clientVersion = true → cfg.clientVersion = none)) ∧
    ((∀ v, cfg.shard = some v →
        (resolveCredentials env (some cfg)).2.shard = false ∧
        ∀ cr, (resolveCredentials env (some cfg)).1 = .ok cr → cr.shard = v) ∧
      ((resolveCredentials env (some cfg)).2.shard = true → cfg.shard = none)) ∧
    ((∀ v, cfg.ssid = some v →
        (resolveCredentials env (some cfg)).2.ssid = false ∧
        ∀ cr, (resolveCredentials env (some cfg)).1 = .ok cr → cr.ssid = v) ∧
      ((resolveCredentials env (some cfg)).2.ssid = true → cfg.ssid = none)) ∧
    ((∀ v, cfg.accessToken = some v →
        (resolveCredentials env (some cfg)).2.accessToken = false ∧
        ∀ cr, (resolveCredentials env (some cfg)).1 = .ok cr → cr.accessToken = v) ∧
      ((resolveCredentials env (some cfg)).2.accessToken = true → cfg.accessToken = none)) ∧
    ((∀ v, cfg.puuid = some v →
        (resolveCredentials env (some cfg)).2.puuid = false ∧
        ∀ cr, (resolveCredentials env (some cfg)).1 = .ok cr → cr.puuid = v) ∧
      ((resolveCredentials env (some cfg)).2.puuid = true → cfg.puuid = none)) ∧
    ((∀ v, cfg.entitlementsToken = some v →
        (resolveCredentials env (some cfg)).2.entitlementsToken = false ∧
        ∀ cr, (resolveCredentials env (some cfg)).1 = .ok cr → cr.entitlementsToken = v) ∧
      ((resolveCredentials env (some cfg)).2.entitlementsToken = true →
        cfg.entitlementsToken = none)) := by
  obtain ⟨o1, o2, o3, o4, o5, o6, o7⟩ := cfg
  simp only [resolveCredentials, Option.some_bind]
  rcases h1 : resolveField o1 env.clientVersion with ⟨e1 | w1, i1⟩
  · simp only [h1]; cases o1 <;> simp_all [resolveField]
  · simp only [h1]
    rcases h2 : resolveField o2 env.shard with ⟨e2 | w2, i2⟩
    · simp only [h2]; cases o1 <;> cases o2 <;> simp_all [resolveField]
    · simp only [h2]
      rcases h3 : resolveField o3 env.ssid with ⟨e3 | w3, i3⟩
      · simp only [h3]; cases o1 <;> cases o2 <;> cases o3 <;> simp_all [resolveField]
      · simp only [h3]
        rcases h4 : resolveField o4 (env.accessToken w3) with ⟨e4 | w4, i4⟩
        · simp only [h4]; cases o1 <;> cases o2 <;> cases o3 <;> cases o4 <;> simp_all [resolveField]
        · simp only [h4]
          rcases h5 : resolveField o5 (env.puuid w4) with ⟨e5 | w5, i5⟩
          · simp only [h5]
            cases o1 <;> cases o2 <;> cases o3 <;> cases o4 <;> cases o5 <;> simp_all [resolveField]
          · simp only [h5]
            rcases h6 : resolveField o6 (env.entitlementsToken w4) with ⟨e6 | w6, i6⟩
            · simp only [h6]
              cases o1 <;> cases o2 <;> cases o3 <;> cases o4 <;> cases o5 <;> cases o6 <;>
                simp_all [resolveField]
            · simp only [h6]
              cases o1 <;> cases o2 <;> cases o3 <;> cases o4 <;> cases o5 <;> cases o6 <;>
                simp_all [resolveField]

/-- Witness for C6: with every field cached and every fallback lookup
throwing, no lookup is invoked. -/
theorem resolveCredentials_cache_precedence_witness :
    (resolveCredentials envFail (some fullCache)).2.clientVersion = false ∧
    (resolveCredentials envFail (some fullCache)).2.shard = false ∧
    (resolveCredentials envFail (some fullCache)).2.ssid = false ∧
    (resolveCredentials envFail (some fullCache)).2.accessToken = false ∧
    (resolveCredentials envFail (some fullCache)).2.puuid = false ∧
    (resolveCredentials envFail (some fullCache)).2.entitlementsToken = false := by
  have h := resolveCredentials_cache_precedence envFail fullCache
  exact ⟨(h.1.1 _ rfl).1, (h.2.1.1 _ rfl).1, (h.2.2.1.1 _ rfl).1,
         (h.2.2.2.1.1 _ rfl).1, (h.2.2.2.2.1.1 _ rfl).1, (h.2.2.2.2.2.1 _ rfl).1⟩

/-- Projections of the post-fetch tail of `main`: the fetch-call list and
clear count pass through unchanged, the report is printed, and the run
either reaches the spin loop (log unchanged) or exits 1 with one more
log line. -/
theorem mainV2Tail_proj (w : WorldV2) (bp : Contract) (cache : Option PartialConfig)
    (fc : List Bool) (cl : Nat) (l : List String) :
    (mainV2Tail w bp cache fc cl l).fetchCalls = fc ∧
    (mainV2Tail w bp cache fc cl l).cacheClears = cl ∧
    (mainV2Tail w bp cache fc cl l).printedReport = true ∧
    (((mainV2Tail w bp cache fc cl l).outcome = .spins ∧
        (mainV2Tail w bp cache fc cl l).log = l) ∨
      ((mainV2Tail w bp cache fc cl l).outcome = .exit 1 ∧
        ∃ m, (mainV2Tail w bp cache fc cl l).log = l ++ [m])) := by
  unfold mainV2Tail
  rcases h : getActiveActEndDate w.envS cache w.seasons w.parseDate with ⟨r, c⟩
  cases r <;> simp [handleError]

/-- C3: `main` first calls `getBattlepassData` with retry allowed; it
truncates `config.yaml` (exactly once, and only then) if and only if
that call returns `undefined`, in which case it re-resolves credentials
from the now-empty cache and calls the fetch exactly once more with
retry disabled; if the second attempt also yields no record the run
exits with status 1. -/
theorem mainV2_retry_policy (w : WorldV2) (c0 : Option PartialConfig) :
    (mainV2 w c0).fetchCalls.head? = some true ∧
    (mainV2 w c0).cacheClears ≤ 1 ∧
    ((getBattlepassData w.env1 c0 w.contracts1 true).1 = .ok none →
      (mainV2 w c0).cacheClears = 1 ∧ (mainV2 w c0).fetchCalls = [true, false]) ∧
    ((getBattlepassData w.env1 c0 w.contracts1 true).1 ≠ .ok none →
      (mainV2 w c0).cacheClears = 0 ∧ (mainV2 w c0).fetchCalls = [true]) ∧
    ((getBattlepassData w.env1 c0 w.contracts1 true).1 = .ok none →
      (∀ bp, (getBattlepassData w.env2 none w.contracts2 false).1 ≠ .ok (some bp)) →
      (mainV2 w c0).outcome = .exit 1) := by
  unfold mainV2
  rcases h1 : getBattlepassData w.env1 c0 w.contracts1 true with ⟨r1, c1⟩
  cases r1 with
  | error e => simp [handleError]
  | ok v1 =>
    cases v1 with
    | some bp =>
      have hp := mainV2Tail_proj w bp c1 [true] 0 []
      simp [hp.1, hp.2.1]
    | none =>
      rcases h2 : getBattlepassData w.env2 none w.contracts2 false with ⟨r2, c2⟩
      cases r2 with
      | error e => simp [handleError]
      | ok v2 =>
        cases v2 with
        | some bp =>
          have hp := mainV2Tail_proj w bp c2 [true, false] 1 ["Retrying..."]
          simp [hp.1, hp.2.1]
        | none => simp [handleError]

/-- C9 (amended): the second variant's `main` never exits with status
0: every run either reaches the `while (true);` spin loop after printing
the report, or calls `process.exit(1)` after appending the failure
message to `error.log`. -/
theorem mainV2_outcome (w : WorldV2) (c0 : Option PartialConfig) :
    ((mainV2 w c0).outcome = .spins ∨ (mainV2 w c0).outcome = .exit 1) ∧
    (mainV2 w c0).outcome ≠ .exit 0 ∧
    ((mainV2 w c0).outcome = .spins → (mainV2 w c0).printedReport = true) ∧
    ((mainV2 w c0).outcome = .exit 1 → (mainV2 w c0).log ≠ []) := by
  unfold mainV2
  rcases h1 : getBattlepassData w.env1 c0 w.contracts1 true with ⟨r1, c1⟩
  cases r1 with
  | error e => simp [handleError]
  | ok v1 =>
    cases v1 with
    | some bp =>
      have hp := mainV2Tail_proj w bp c1 [true] 0 []
      rcases hp.2.2.2 with ⟨ho, hl⟩ | ⟨ho, m, hl⟩ <;> simp_all
    | none =>
      rcases h2 : getBattlepassData w.env2 none w.contracts2 false with ⟨r2, c2⟩
      cases r2 with
      | error e => simp [handleError]
      | ok v2 =>
        cases v2 with
        | some bp =>
          have hp := mainV2Tail_proj w bp c2 [true, false] 1 ["Retrying..."]
          rcases hp.2.2.2 with ⟨ho, hl⟩ | ⟨ho, m, hl⟩ <;> simp_all
        | none => simp [handleError]

/-- C9 (counterexample): a fully successful run — report printed,
nothing logged — does not terminate with exit status 0; it reaches the
spin loop and never exits. -/
theorem mainV2_success_cex :
    (mainV2 w0 none).printedReport = true ∧ (mainV2 w0 none).log = [] ∧
    (mainV2 w0 none).report.isSome = true ∧ (mainV2 w0 none).time.isSome = true ∧
    (mainV2 w0 none).outcome = .spins ∧ (mainV2 w0 none).outcome ≠ .exit 0 := by
  decide

/-- C7: `getActiveActEndDate` returns the end time of a season that is
active and of kind act whenever it succeeds; but when no such season
exists it fails with a runtime `TypeError` from reading `EndTime` of
`undefined` — the code has no dedicated season-not-found error. -/
theorem getActiveActEndDate_spec (env : ResolverEnv) (cache : Option PartialConfig)
    (seasons : List Season) (parseDate : String → Int) (cfg : Config)
    (hc : getConfig env cache = .ok cfg) :
    (∀ t, (getActiveActEndDate env cache seasons parseDate).1 = .ok t →
      ∃ s ∈ seasons, s.IsActive = true ∧ s.kind = SeasonType.act ∧ t = parseDate s.EndTime) ∧
    ((∀ s ∈ seasons, ¬(s.IsActive = true ∧ s.kind = SeasonType.act)) →
      (getActiveActEndDate env cache seasons parseDate).1 =
        .error (.typeError "Cannot read properties of undefined")) := by
  have hrun : runGetConfig env cache = (.ok cfg, some (toPartial cfg)) := by
    unfold runGetConfig
    rw [hc]
  constructor
  · intro t ht
    unfold getActiveActEndDate at ht
    rw [hrun] at ht
    rcases hf : seasons.find? (fun s => s.IsActive && s.kind == SeasonType.act) with _ | s
    · rw [hf] at ht
      simp at ht
    · rw [hf] at ht
      have hs := List.find?_some hf
      have hmem := List.mem_of_find?_eq_some hf
      simp only [Bool.and_eq_true, beq_iff_eq] at hs
      simp only [Except.ok.injEq] at ht
      exact ⟨s, hmem, hs.1, hs.2, ht.symm⟩
  · intro hnone
    have hf : seasons.find? (fun s => s.IsActive && s.kind == SeasonType.act) = none := by
      rw [List.find?_eq_none]
      intro s hs
      simp only [Bool.and_eq_true, beq_iff_eq, not_and]
      intro ha hk
      exact hnone s hs ⟨ha, hk⟩
    unfold getActiveActEndDate
    rw [hrun, hf]

/-- Witness for C7: the no-match failure evaluated on an empty season
list. -/
theorem getActiveActEndDate_spec_witness :
    (getActiveActEndDate envOK none [] (fun _ => 0)).1 =
      .error (.typeError "Cannot read properties of undefined") :=
  (getActiveActEndDate_spec envOK none [] (fun _ => 0) cfgOK rfl).2 (by simp)

/-- The first variant's `getBattlePassProgress` can never return the
number 0: `if (progress)` is false for 0. -/
theorem gBPP_never_zero (env : ResolverEnv) (cache : Option PartialConfig)
    (contracts : List Contract) :
    (getBattlePassProgress env cache contracts).1 ≠ .ok (some 0) := by
  intro h
  unfold getBattlePassProgress at h
  rcases hr : resolveCredentials env cache with ⟨r, i⟩
  rw [hr] at h
  cases r with
  | error e => simp at h
  | ok cr =>
    rcases hf : contracts.find?
        (fun c => c.ContractDefinitionID == CONTRACT_BATTLEPASS_ID_V1) with _ | c
    · rw [hf] at h
      cases cache <;> simp_all
    · rw [hf] at h
      by_cases hz : c.ContractProgression.TotalProgressionEarned = 0 <;>
        cases cache <;> simp_all

/-- With a cache record present and a found battlepass record whose
earned total is 0, the first variant's fetch returns `undefined`. -/
theorem gBPP_zero_absent (env : ResolverEnv) (cfg : PartialConfig)
    (contracts : List Contract) (c : Contract) (cr : Credentials) (i : Invocations)
    (hres : resolveCredentials env (some cfg) = (.ok cr, i))
    (hfind : contracts.find?
      (fun k => k.ContractDefinitionID == CONTRACT_BATTLEPASS_ID_V1) = some c)
    (hzero : c.ContractProgression.TotalProgressionEarned = 0) :
    (getBattlePassProgress env (some cfg) contracts).1 = .ok none := by
  unfold getBattlePassProgress
  rw [hres]
  simp [hfind, hzero]

/-- With no cache record and a found battlepass record whose earned
total is 0, the first variant's fetch throws. -/
theorem gBPP_zero_throw (env : ResolverEnv)
    (contracts : List Contract) (c : Contract) (cr : Credentials) (i : Invocations)
    (hres : resolveCredentials env none = (.ok cr, i))
    (hfind : contracts.find?
      (fun k => k.ContractDefinitionID == CONTRACT_BATTLEPASS_ID_V1) = some c)
    (hzero : c.ContractProgression.TotalProgressionEarned = 0) :
    (getBattlePassProgress env none contracts).1 = .error (.error "Failed to get progress") := by
  unfold getBattlePassProgress
  rw [hres]
  simp [hfind, hzero]

/-- C10: in the first pipeline variant a matching reward-track record
with `TotalProgressionEarned = 0` is treated as missing: the fetch never
returns 0 — it returns `undefined` when a cache record existed and
throws otherwise — and the orchestrating flow then clears the cache,
retries once, and fails the run with exit status 1 even though a valid
zero-progress record was present both times. -/
theorem getBattlePassProgress_zero_is_missing :
    (∀ env cache contracts, (getBattlePassProgress env cache contracts).1 ≠ .ok (some 0)) ∧
    (∀ env cfg contracts c cr i,
      resolveCredentials env (some cfg) = (.ok cr, i) →
      contracts.find? (fun k => k.ContractDefinitionID == CONTRACT_BATTLEPASS_ID_V1) = some c →
      c.ContractProgression.TotalProgressionEarned = 0 →
      (getBattlePassProgress env (some cfg) contracts).1 = .ok none) ∧
    (∀ env contracts c cr i,
      resolveCredentials env none = (.ok cr, i) →
      contracts.find? (fun k => k.ContractDefinitionID == CONTRACT_BATTLEPASS_ID_V1) = some c →
      c.ContractProgression.TotalProgressionEarned = 0 →
      (getBattlePassProgress env none contracts).1 =
        .error (.error "Failed to get progress")) ∧
    (∀ (w : WorldV1) cfg c1 c2 cr1 i1 cr2 i2,
      resolveCredentials w.env1 (some cfg) = (.ok cr1, i1) →
      w.contracts1.find?
        (fun k => k.ContractDefinitionID == CONTRACT_BATTLEPASS_ID_V1) = some c1 →
      c1.ContractProgression.TotalProgressionEarned = 0 →
      resolveCredentials w.env2 none = (.ok cr2, i2) →
      w.contracts2.find?
        (fun k => k.ContractDefinitionID == CONTRACT_BATTLEPASS_ID_V1) = some c2 →
      c2.ContractProgression.TotalProgressionEarned = 0 →
      mainV1 w (some cfg) =
        ⟨2, 1, ["Retrying...", "Failed to get progress"], none, .exit 1⟩) := by
  refine ⟨gBPP_never_zero,
    fun env cfg contracts c cr i h1 h2 h3 => gBPP_zero_absent env cfg contracts c cr i h1 h2 h3,
    fun env contracts c cr i h1 h2 h3 => gBPP_zero_throw env contracts c cr i h1 h2 h3, ?_⟩
  intro w cfg c1 c2 cr1 i1 cr2 i2 ha1 ha2 ha3 hb1 hb2 hb3
  have k1 := gBPP_zero_absent w.env1 cfg w.contracts1 c1 cr1 i1 ha1 ha2 ha3
  have k2 := gBPP_zero_throw w.env2 w.contracts2 c2 cr2 i2 hb1 hb2 hb3
  unfold mainV1
  rcases q1 : getBattlePassProgress w.env1 (some cfg) w.contracts1 with ⟨v1, cc1⟩
  rw [q1] at k1
  dsimp only at k1
  subst k1
  rcases q2 : getBattlePassProgress w.env2 none w.contracts2 with ⟨v2, cc2⟩
  rw [q2] at k2
  dsimp only at k2
  subst k2
  simp [jsFalsyNum, JsError.msg]

/-- Witness for C3: both attempts find no record; the cache is cleared
once, the fetch runs twice, the run exits 1. -/
theorem mainV2_retry_policy_witness :
    (mainV2 w3 none).cacheClears = 1 ∧ (mainV2 w3 none).fetchCalls = [true, false] ∧
    (mainV2 w3 none).outcome = .exit 1 := by
  have h := mainV2_retry_policy w3 none
  have h1 : (getBattlepassData w3.env1 none w3.contracts1 true).1 = .ok none := rfl
  have h2 : ∀ bp, (getBattlepassData w3.env2 none w3.contracts2 false).1 ≠ .ok (some bp) := by
    intro bp hbp
    have he : (getBattlepassData w3.env2 none w3.contracts2 false).1 =
        .error (.error "Failed to get battlepass data") := rfl
    rw [he] at hbp
    simp at hbp
  exact ⟨(h.2.2.1 h1).1, (h.2.2.1 h1).2, h.2.2.2.2 h1 h2⟩

/-- Witness for C9: a failing run has a nonempty error log. -/
theorem mainV2_outcome_witness : (mainV2 w3 none).log ≠ [] := by
  have h := mainV2_outcome w3 none
  exact h.2.2.2 (by decide)

/-- Witness for C10: a zero-progress record on both attempts drives the
retry-then-fail path. -/
theorem getBattlePassProgress_zero_is_missing_witness :
    mainV1 wz (some fullCache) =
      ⟨2, 1, ["Retrying...", "Failed to get progress"], none, .exit 1⟩ :=
  (getBattlePassProgress_zero_is_missing).2.2.2 wz fullCache
    (bpContractV1 0) (bpContractV1 0)
    ⟨"release-09.00-shipping", "eu", "ssid-cookie", "access-token", "puuid-1", "ent-token"⟩
    ⟨false, false, false, false, false, false⟩
    ⟨"release-09.00-shipping", "eu", "ssid-cookie", "access-token", "puuid-1", "ent-token"⟩
    ⟨true, true, true, true, true, true⟩
    rfl rfl rfl rfl rfl rfl
